import Mathlib

/-!
Verification of the AutomatizacionLogistica frontend core logic against its
natural-language specification.  The definitions below are shallow embeddings
of the TypeScript/React-Native source: pure computations become Lean
functions, JavaScript numbers become rationals, stateful screen callbacks
become explicit state-and-effect passing, and I/O callbacks (permission
prompts, per-photo download results) become oracle parameters.
-/

namespace AutoLog

/-! ## Pricing engine
Embeds `calculateWallapopPrice` from
`src/frontend/src/screens/LoginScreen.tsx` (ProductFormScreen section,
lines 304-310):
```
const calculateWallapopPrice = (amazonPrice: number): number => {
  if (amazonPrice < 250) { return amazonPrice * 0.5; }
  else { return amazonPrice * 0.6; }
};
```
JavaScript numbers are modelled as rationals; the function performs no
input validation in the source. -/
def calculateWallapopPrice (amazonPrice : ℚ) : ℚ :=
  if amazonPrice < 250 then amazonPrice * 0.5 else amazonPrice * 0.6

/-- The savings computation from the same screen (line 313):
`const savings = amazonData.price - wallapopPrice;`. -/
def calculateSavings (amazonPrice : ℚ) : ℚ :=
  amazonPrice - calculateWallapopPrice amazonPrice

/-- Modelled from the spec (section 4.1), NOT from the source: the spec's
words say `computeResalePrice` rejects negative input with an
`InvalidPriceError` "rather than silently coerced"; `none` stands for the
raised error.  This definition exists only to be compared against the
source-derived `calculateWallapopPrice`, which has no error path. -/
def computeResalePriceSpec (sourcePrice : ℚ) : Option ℚ :=
  if sourcePrice < 0 then none
  else if sourcePrice < 250 then some (sourcePrice * 0.5)
  else some (sourcePrice * 0.6)

/-! ## Capture-side photo manager
Embeds the `CameraCapture` component (`src/unnamed/part_001`,
`handleTakePhoto` lines 27-31, `openCamera` lines 54-76, `openGallery`
lines 78-100).  `handleTakePhoto` guards every add attempt: when
`photos.length >= maxPhotos` it raises the user-visible alert
"Límite alcanzado" and leaves the collection unchanged.  Otherwise the
camera appends the single captured asset, and the gallery picker is opened
with `selectionLimit: maxPhotos - photos.length`, so at most the remaining
capacity is appended. -/

inductive CaptureSignal where
  | limitReached
  deriving DecidableEq, Repr

inductive CaptureOp (A : Type) where
  | takePhoto (shot : A)
  | pickGallery (selected : List A)
  deriving Repr

/-- One user add interaction on the `CameraCapture` photo list: the
`handleTakePhoto` capacity guard followed by the chosen picker callback. -/
def captureStep {A : Type} (maxPhotos : Nat) (photos : List A) :
    CaptureOp A → List A × Option CaptureSignal
  | .takePhoto shot =>
    if maxPhotos ≤ photos.length then (photos, some .limitReached)
    else (photos ++ [shot], none)
  | .pickGallery selected =>
    if maxPhotos ≤ photos.length then (photos, some .limitReached)
    else (photos ++ selected.take (maxPhotos - photos.length), none)

/-- Run a sequence of add interactions from a given photo list, collecting
the raised capacity signals in order. -/
def runCaptureFrom {A : Type} (maxPhotos : Nat) (photos : List A) :
    List (CaptureOp A) → List A × List CaptureSignal
  | [] => (photos, [])
  | op :: rest =>
    let step := captureStep maxPhotos photos op
    let next := runCaptureFrom maxPhotos step.1 rest
    (next.1, step.2.toList ++ next.2)

/-- Run a sequence of add interactions on a fresh component
(`useState<Asset[]>([])`). -/
def runCapture {A : Type} (maxPhotos : Nat) (ops : List (CaptureOp A)) :
    List A × List CaptureSignal :=
  runCaptureFrom maxPhotos [] ops

/-! ## Photo download batch
Embeds `downloadAllPhotos` from
`src/frontend/src/screens/VendedorScreen.tsx` (lines 258-318).  The
function returns early with an info alert when the url list is empty;
on Android it requests the `WRITE_EXTERNAL_STORAGE` permission once and
aborts the whole batch ("Sin permiso para guardar fotos") when the grant
is denied and `Platform.Version < 33`; otherwise it loops over all urls,
wrapping each `RNFS.downloadFile` in its own try/catch so a per-item
failure only skips the `successCount++`, and finally reports
"Se han guardado {successCount} de {photoUrls.length} fotos".  The
platform, the permission grant, and the per-item download outcome are
modelled as oracle parameters. -/

inductive MobileOS where
  | android
  | ios
  deriving DecidableEq, Repr

inductive DlEvent where
  | permissionRequest
  | attemptDownload (i : Nat)
  deriving DecidableEq, Repr

structure DlResult where
  trace : List DlEvent
  succeeded : Nat
  reported : Option (Nat × Nat)
  aborted : Bool
  deriving DecidableEq, Repr

/-- The platform gate under which the source's permission denial aborts the
batch: Android builds below API 33 (on API 33+ the legacy storage
permission is not required and the source ignores the denial). -/
def requiresStoragePermission (os : MobileOS) (version : Nat) : Prop :=
  os = MobileOS.android ∧ version < 33

instance (os : MobileOS) (version : Nat) :
    Decidable (requiresStoragePermission os version) :=
  inferInstanceAs (Decidable (_ ∧ _))

/-- The one-shot permission request issued before the loop (`Pedir
permisos primero`): present exactly on Android. -/
def permTrace (os : MobileOS) : List DlEvent :=
  if os = MobileOS.android then [.permissionRequest] else []

def downloadAllPhotos (os : MobileOS) (version : Nat) (granted : Bool)
    (itemOk : Nat → Bool) (photoUrls : List String) : DlResult :=
  if photoUrls.length = 0 then
    { trace := [], succeeded := 0, reported := none, aborted := false }
  else if os = MobileOS.android ∧ granted = false ∧ version < 33 then
    { trace := permTrace os, succeeded := 0, reported := none,
      aborted := true }
  else
    { trace := permTrace os ++
        (List.range photoUrls.length).map DlEvent.attemptDownload,
      succeeded := ((List.range photoUrls.length).filter itemOk).length,
      reported := some (((List.range photoUrls.length).filter itemOk).length,
        photoUrls.length),
      aborted := false }

/-! ## Search/filter query builder
Embeds the url construction of `fetchProducts` from
`src/frontend/src/screens/VendedorScreen.tsx` (lines 62-98):
```
let url = `${API_CONFIG.BASE_URL}/products?limit=50`;
if (searchText.trim()) { url += `&search=${encodeURIComponent(searchText.trim())}`; }
if (dateFrom) { url += `&date_from=${dateFrom}`; }
if (dateTo)   { url += `&date_to=${dateTo}`; }
```
modelled as the ordered list of query parameters.  JavaScript string
truthiness is non-emptiness. -/

/-- JavaScript `String.prototype.trim`: strip whitespace from both ends. -/
def jsTrim (s : String) : String :=
  String.mk (((s.data.dropWhile Char.isWhitespace).reverse.dropWhile
    Char.isWhitespace).reverse)

/-- Uppercase hexadecimal digit for a value below 16. -/
def hexDigit (n : Nat) : Char :=
  if n < 10 then Char.ofNat (48 + n) else Char.ofNat (55 + n)

/-- Standard UTF-8 encoding of a Unicode scalar value. -/
def utf8Bytes (n : Nat) : List Nat :=
  if n < 0x80 then [n]
  else if n < 0x800 then
    [0xC0 + n / 0x40, 0x80 + n % 0x40]
  else if n < 0x10000 then
    [0xE0 + n / 0x1000, 0x80 + n / 0x40 % 0x40, 0x80 + n % 0x40]
  else
    [0xF0 + n / 0x40000, 0x80 + n / 0x1000 % 0x40, 0x80 + n / 0x40 % 0x40,
      0x80 + n % 0x40]

/-- The characters `encodeURIComponent` leaves unescaped. -/
def isUriUnescaped (c : Char) : Bool :=
  c.isAlphanum ||
    c ∈ ['-', '_', '.', '!', '~', '*', '\'', '(', ')']

/-- JavaScript `encodeURIComponent`: unescaped characters pass through,
every other character is percent-encoded byte by byte in UTF-8. -/
def encodeURIComponent (s : String) : String :=
  String.mk (s.data.flatMap fun c =>
    if isUriUnescaped c then [c]
    else (utf8Bytes c.toNat).flatMap fun b =>
      ['%', hexDigit (b / 16), hexDigit (b % 16)])

/-- The ordered query parameters of the products request built by
`fetchProducts` for a given filter state. -/
def buildProductsQuery (searchText dateFrom dateTo : String) :
    List (String × String) :=
  [("limit", "50")] ++
    (if jsTrim searchText = "" then []
      else [("search", encodeURIComponent (jsTrim searchText))]) ++
    (if dateFrom = "" then [] else [("date_from", dateFrom)]) ++
    (if dateTo = "" then [] else [("date_to", dateTo)])

/-! ## Status-transition actions offered by the management view
Embeds the conditional rendering of action buttons in
`src/frontend/src/screens/VendedorScreen.tsx`:
`renderProductItem` (lines 373-388) shows a quick "Marcar vendido" button
only when `item.status === 'publicado'` plus an unconditional "Eliminar"
button; `renderProductModal` (lines 557-583) shows "Marcar como publicado"
only when `status === 'revisado'`, "Marcar como vendido" only when
`status === 'publicado'`, and an unconditional "Eliminar producto"
button. -/

inductive ListingAction where
  | markPublished
  | markSold
  | deleteListing
  deriving DecidableEq, Repr

/-- Status string sent by each offered action: `updateProductStatus(id,
'publicado')`, `updateProductStatus(id, 'vendido')`, or none for the
`deleteProduct` entity removal. -/
def actionStatusTarget : ListingAction → Option String
  | .markPublished => some "publicado"
  | .markSold => some "vendido"
  | .deleteListing => none

/-- Action buttons rendered on a product card by `renderProductItem`. -/
def itemQuickActions (status : String) : List ListingAction :=
  (if status = "publicado" then [.markSold] else []) ++ [.deleteListing]

/-- Action buttons rendered in the detail modal by `renderProductModal`. -/
def modalActions (status : String) : List ListingAction :=
  (if status = "revisado" then [.markPublished] else []) ++
    (if status = "publicado" then [.markSold] else []) ++ [.deleteListing]

/-- All status-transition/delete actions the management view offers for a
listing in the given status, across both render sites. -/
def offeredActions (status : String) : List ListingAction :=
  itemQuickActions status ++ modalActions status

/-! ## Operator text search validation
Embeds `handleSearch` from the operator search screen
(`src/unnamed/part_001`, App component, lines 620-637):
```
if (!searchQuery.trim()) { Alert.alert('Error', 'Por favor ingresa un término de búsqueda'); return; }
if (searchQuery.trim().length < 3) { Alert.alert('Error', 'La búsqueda debe tener al menos 3 caracteres'); return; }
... await searchAmazon(searchQuery.trim());
``` -/

inductive SearchOutcome where
  | validationError (message : String)
  | invokeRemote (query : String)
  deriving DecidableEq, Repr

def handleSearch (searchQuery : String) : SearchOutcome :=
  if jsTrim searchQuery = "" then
    .validationError "Por favor ingresa un término de búsqueda"
  else if (jsTrim searchQuery).length < 3 then
    .validationError "La búsqueda debe tener al menos 3 caracteres"
  else
    .invokeRemote (jsTrim searchQuery)

/-! ## Management screen state and clearFilters
Embeds the `VendedorScreen` component state hooks (lines 49-60) and
`clearFilters` (lines 108-113):
```
const clearFilters = () => {
  setSearchText(''); setDateFrom(''); setDateTo(''); setShowFilters(false);
};
```
Remote calls issued by a handler are modelled as an explicit effect list;
`clearFilters` calls no fetch, while `handleSearch` (line 104) and the
list refresh call `fetchProducts`. -/

structure ProductItem where
  id : String
  product_id : String
  created_at : String
  title : String
  amazon_price : ℚ
  wallapop_price : ℚ
  optimized_description : String
  defects : String
  photos_count : Nat
  photo_urls : List String
  amazon_image_url : Option String
  status : String

structure VendedorState where
  products : List ProductItem
  totalProducts : Nat
  searchText : String
  dateFrom : String
  dateTo : String
  showFilters : Bool
  isLoading : Bool
  isRefreshing : Bool
  selectedProduct : Option ProductItem

inductive ScreenEffect where
  | fetchProducts (refresh : Bool)
  deriving DecidableEq, Repr

def clearFilters (s : VendedorState) : VendedorState × List ScreenEffect :=
  ({ s with
      searchText := ""
      dateFrom := ""
      dateTo := ""
      showFilters := false }, [])

/-- The search button handler (`handleSearch` in `VendedorScreen`, lines
104-106): it only re-issues the fetch, leaving the state to the fetch
response. -/
def searchButtonEffects (s : VendedorState) : VendedorState × List ScreenEffect :=
  (s, [ScreenEffect.fetchProducts false])

/-! ## Upload multipart packaging
Embeds the `FormData` construction of `uploadProduct` from
`src/frontend/src/services/api.ts` (lines 50-78): four text fields, two
optional text fields, then
```
data.photos.forEach((photo, index) => {
  if (photo.uri) {
    const file = { uri: photo.uri, type: photo.type || 'image/jpeg',
                   name: photo.fileName || `photo_${index + 1}.jpg` };
    formData.append('files', file as any);
  }
});
```
Absent/empty (falsy) optional strings are modelled as `""`. -/

structure ApiPhoto where
  uri : String
  mime : String
  fileName : String
  deriving DecidableEq, Repr

structure UploadProductData where
  title : String
  amazon_price : ℚ
  amazon_description : String
  defects_description : String
  amazon_image_url : String
  amazon_url : String
  photos : List ApiPhoto

inductive FormPart where
  | text (field value : String)
  | file (field uri mime name : String)
  deriving DecidableEq, Repr

/-- The photo portion of the form: the `forEach` with its running index. -/
def photoParts : Nat → List ApiPhoto → List FormPart
  | _, [] => []
  | index, photo :: rest =>
    (if photo.uri = "" then []
      else [FormPart.file "files" photo.uri
        (if photo.mime = "" then "image/jpeg" else photo.mime)
        (if photo.fileName = "" then
          "photo_" ++ toString (index + 1) ++ ".jpg"
          else photo.fileName)]) ++
      photoParts (index + 1) rest

/-- The full ordered multipart body built by `uploadProduct`. -/
def uploadProductFormData (data : UploadProductData) : List FormPart :=
  [FormPart.text "title" data.title,
    FormPart.text "amazon_price" (toString data.amazon_price),
    FormPart.text "amazon_description" data.amazon_description,
    FormPart.text "defects_description" data.defects_description] ++
    (if data.amazon_image_url = "" then []
      else [FormPart.text "amazon_image_url" data.amazon_image_url]) ++
    (if data.amazon_url = "" then []
      else [FormPart.text "amazon_url" data.amazon_url]) ++
    photoParts 0 data.photos

/-- Multipart field name of a binary (file) part. -/
def filePartKey : FormPart → Option String
  | .text _ _ => none
  | .file field _ _ _ => some field

/-- Source uri of a binary (file) part. -/
def filePartUri : FormPart → Option String
  | .text _ _ => none
  | .file _ uri _ _ => some uri

/-- File name of a binary (file) part. -/
def filePartName : FormPart → Option String
  | .text _ _ => none
  | .file _ _ _ name => some name

theorem captureStep_length_le {A : Type} (maxPhotos : Nat) (photos : List A)
    (op : CaptureOp A) (h : photos.length ≤ maxPhotos) :
    (captureStep maxPhotos photos op).1.length ≤ maxPhotos := by
  cases op with
  | takePhoto shot =>
    by_cases hfull : maxPhotos ≤ photos.length
    · simpa [captureStep, hfull] using h
    · simp only [captureStep, if_neg hfull, List.length_append,
        List.length_singleton]
      omega
  | pickGallery selected =>
    by_cases hfull : maxPhotos ≤ photos.length
    · simpa [captureStep, hfull] using h
    · simp only [captureStep, if_neg hfull, List.length_append,
        List.length_take]
      omega

theorem runCaptureFrom_length_le {A : Type} (maxPhotos : Nat)
    (ops : List (CaptureOp A)) :
    ∀ photos : List A, photos.length ≤ maxPhotos →
      (runCaptureFrom maxPhotos photos ops).1.length ≤ maxPhotos := by
  induction ops with
  | nil => intro photos h; simpa [runCaptureFrom] using h
  | cons op rest ih =>
    intro photos h
    simpa [runCaptureFrom] using
      ih (captureStep maxPhotos photos op).1
        (captureStep_length_le maxPhotos photos op h)

/-- C1: for every source price p ≥ 0, `calculateWallapopPrice` returns
p * 0.5 when p < 250 and p * 0.6 when p ≥ 250; the boundary is exclusive
for the lower tier and inclusive for the higher tier, so the price at 250
is 150 and the price at 249.99 is 124.995. -/
theorem calculateWallapopPrice_tiers (p : ℚ) (hp : 0 ≤ p) :
    (p < 250 → calculateWallapopPrice p = p * 0.5) ∧
    (250 ≤ p → calculateWallapopPrice p = p * 0.6) ∧
    calculateWallapopPrice 250 = 150 ∧
    calculateWallapopPrice (249.99 : ℚ) = 124.995 := by
  refine ⟨fun h => by simp [calculateWallapopPrice, h],
    fun h => by simp [calculateWallapopPrice, not_lt.mpr h], ?_, ?_⟩
  · norm_num [calculateWallapopPrice]
  · norm_num [calculateWallapopPrice]

/-- Witness for C1 at the concrete source price 300. -/
theorem calculateWallapopPrice_tiers_witness :
    (0 : ℚ) ≤ 300 ∧
      (((300 : ℚ) < 250 → calculateWallapopPrice 300 = 300 * 0.5) ∧
        ((250 : ℚ) ≤ 300 → calculateWallapopPrice 300 = 300 * 0.6) ∧
        calculateWallapopPrice 250 = 150 ∧
        calculateWallapopPrice (249.99 : ℚ) = 124.995) :=
  ⟨by norm_num, calculateWallapopPrice_tiers 300 (by norm_num)⟩

/-- C2 counterexample: at the concrete negative input -100 the source's
pricing function returns the numeric value -50, whereas the spec's words
("negative input is rejected with an InvalidPriceError") demand the error
outcome, modelled by `computeResalePriceSpec` returning `none`.  The claim
that the code raises for every negative input is therefore false. -/
theorem calculateWallapopPrice_negative_cex :
    calculateWallapopPrice (-100) = -50 ∧
      computeResalePriceSpec (-100) = none := by
  constructor
  · norm_num [calculateWallapopPrice]
  · norm_num [computeResalePriceSpec]

/-- C2 amended: `calculateWallapopPrice` performs no input validation; a
negative source price falls into the lower tier and the function returns
the (negative) numeric value p * 0.5 instead of raising any error. -/
theorem calculateWallapopPrice_negative (p : ℚ) (hp : p < 0) :
    calculateWallapopPrice p = p * 0.5 := by
  have h : p < 250 := lt_trans hp (by norm_num)
  simp [calculateWallapopPrice, h]

/-- Witness for the amended C2 at the concrete input -100. -/
theorem calculateWallapopPrice_negative_witness :
    (-100 : ℚ) < 0 ∧ calculateWallapopPrice (-100) = (-100) * 0.5 :=
  ⟨by norm_num, calculateWallapopPrice_negative (-100) (by norm_num)⟩

/-- C8: with maxPhotos = 6 the held photo sequence never exceeds 6
elements over any sequence of camera/gallery add interactions, and in the
concrete scenario of eight single-photo add attempts the first six are
kept, the last two are rejected leaving exactly 6 photos, and each
rejected attempt raises the user-visible limit signal (the model is a
total function, so no exception is involved). -/
theorem captureManager_capacity :
    (∀ (A : Type) (ops : List (CaptureOp A)),
      ((runCapture 6 ops).1).length ≤ 6) ∧
    runCapture 6 ((List.range 8).map CaptureOp.takePhoto) =
      ([0, 1, 2, 3, 4, 5],
        [CaptureSignal.limitReached, CaptureSignal.limitReached]) := by
  constructor
  · intro A ops
    exact runCaptureFrom_length_le 6 ops [] (by simp)
  · rfl

/-- C3: across both render sites of the management view, the mark-as-
published action is offered exactly for status "revisado", the mark-as-
sold action exactly for status "publicado", delete is offered for every
status, and in particular neither transition action is offered for a
listing still in "en_analisis" (no direct IN_REVIEW to PUBLISHED edge). -/
theorem offeredActions_policy (status : String) :
    (ListingAction.markPublished ∈ offeredActions status ↔
      status = "revisado") ∧
    (ListingAction.markSold ∈ offeredActions status ↔
      status = "publicado") ∧
    ListingAction.deleteListing ∈ offeredActions status ∧
    ListingAction.markPublished ∉ offeredActions "en_analisis" ∧
    actionStatusTarget ListingAction.markPublished = some "publicado" ∧
    actionStatusTarget ListingAction.markSold = some "vendido" := by
  refine ⟨?_, ?_, ?_, by decide, rfl, rfl⟩ <;>
    by_cases h1 : status = "revisado" <;>
      by_cases h2 : status = "publicado" <;>
        simp_all [offeredActions, itemQuickActions, modalActions]

/-- C4: the products query always carries limit=50; it carries the search
parameter exactly when the trimmed search text is non-empty, with the
trimmed text percent-encoded; it carries date_from (resp. date_to)
exactly when the corresponding field is non-empty, passed through
verbatim; and the empty filter yields only the limit parameter. -/
theorem buildProductsQuery_params (st df dt : String) :
    (buildProductsQuery st df dt).filter (fun kv => kv.1 == "limit") =
      [("limit", "50")] ∧
    (buildProductsQuery st df dt).filter (fun kv => kv.1 == "search") =
      (if jsTrim st = "" then []
        else [("search", encodeURIComponent (jsTrim st))]) ∧
    (buildProductsQuery st df dt).filter (fun kv => kv.1 == "date_from") =
      (if df = "" then [] else [("date_from", df)]) ∧
    (buildProductsQuery st df dt).filter (fun kv => kv.1 == "date_to") =
      (if dt = "" then [] else [("date_to", dt)]) ∧
    buildProductsQuery "" "" "" = [("limit", "50")] := by
  refine ⟨?_, ?_, ?_, ?_, rfl⟩ <;>
    · simp only [buildProductsQuery]
      split_ifs <;> rfl

/-- C5: whenever the batch is not stopped by the permission gate, every
item of the batch is attempted (a per-item failure never aborts the
remaining items), the succeeded count is the number of items whose
download succeeds, it never exceeds the batch size (so failed =
n - succeeded is the failure count), and the completion report states
succeeded out of n. -/
theorem downloadAllPhotos_partial_failure (os : MobileOS) (version : Nat)
    (granted : Bool) (itemOk : Nat → Bool) (photoUrls : List String)
    (hne : photoUrls ≠ [])
    (hperm : ¬(os = MobileOS.android ∧ granted = false ∧ version < 33)) :
    (∀ i < photoUrls.length, DlEvent.attemptDownload i ∈
      (downloadAllPhotos os version granted itemOk photoUrls).trace) ∧
    (downloadAllPhotos os version granted itemOk photoUrls).succeeded =
      ((List.range photoUrls.length).filter itemOk).length ∧
    (downloadAllPhotos os version granted itemOk photoUrls).succeeded ≤
      photoUrls.length ∧
    (downloadAllPhotos os version granted itemOk photoUrls).reported =
      some ((downloadAllPhotos os version granted itemOk photoUrls).succeeded,
        photoUrls.length) ∧
    (downloadAllPhotos os version granted itemOk photoUrls).aborted = false := by
  have hlen : ¬photoUrls.length = 0 := by
    simpa [List.length_eq_zero] using hne
  have heq : downloadAllPhotos os version granted itemOk photoUrls =
      { trace := permTrace os ++
          (List.range photoUrls.length).map DlEvent.attemptDownload,
        succeeded := ((List.range photoUrls.length).filter itemOk).length,
        reported :=
          some (((List.range photoUrls.length).filter itemOk).length,
            photoUrls.length),
        aborted := false } := by
    unfold downloadAllPhotos
    rw [if_neg hlen, if_neg hperm]
  rw [heq]
  refine ⟨?_, rfl, ?_, rfl, rfl⟩
  · intro i hi
    exact List.mem_append_right _ (List.mem_map_of_mem _
      (List.mem_range.mpr hi))
  · calc ((List.range photoUrls.length).filter itemOk).length ≤
        (List.range photoUrls.length).length := List.length_filter_le _ _
      _ = photoUrls.length := List.length_range _

/-- Witness for C5: the spec's scenario of five photos where item 3 (index
2) fails; the theorem yields the general facts and the concrete counts
succeeded = 4, reported = (4 of 5), with items 4 and 5 still attempted. -/
theorem downloadAllPhotos_partial_failure_witness :
    ((["a", "b", "c", "d", "e"] : List String) ≠ [] ∧
      ¬(MobileOS.ios = MobileOS.android ∧ true = false ∧ 30 < 33)) ∧
    (DlEvent.attemptDownload 3 ∈
      (downloadAllPhotos MobileOS.ios 30 true (fun i => !(i == 2))
        ["a", "b", "c", "d", "e"]).trace ∧
      DlEvent.attemptDownload 4 ∈
        (downloadAllPhotos MobileOS.ios 30 true (fun i => !(i == 2))
          ["a", "b", "c", "d", "e"]).trace) ∧
    (downloadAllPhotos MobileOS.ios 30 true (fun i => !(i == 2))
      ["a", "b", "c", "d", "e"]).succeeded = 4 ∧
    (downloadAllPhotos MobileOS.ios 30 true (fun i => !(i == 2))
      ["a", "b", "c", "d", "e"]).reported = some (4, 5) := by
  have h := downloadAllPhotos_partial_failure MobileOS.ios 30 true
    (fun i => !(i == 2)) ["a", "b", "c", "d", "e"] (by decide) (by decide)
  exact ⟨⟨by decide, by decide⟩,
    ⟨h.1 3 (by decide), h.1 4 (by decide)⟩, by decide, by decide⟩

/-- C6: on a platform that requires the storage permission grant (Android
below API 33), a non-empty download batch requests the permission exactly
once, as the very first event before any download attempt, and a denied
grant aborts the whole batch: no item is attempted, nothing is reported,
distinguishing permission denial (abort-before-start) from per-item
failure (continue-on-error, claim C5). -/
theorem downloadAllPhotos_permission_gate (version : Nat) (granted : Bool)
    (itemOk : Nat → Bool) (photoUrls : List String)
    (hne : photoUrls ≠ [])
    (hreq : requiresStoragePermission MobileOS.android version) :
    (downloadAllPhotos MobileOS.android version granted itemOk
      photoUrls).trace.count DlEvent.permissionRequest = 1 ∧
    (downloadAllPhotos MobileOS.android version granted itemOk
      photoUrls).trace.head? = some DlEvent.permissionRequest ∧
    (granted = false →
      (downloadAllPhotos MobileOS.android version granted itemOk
        photoUrls).aborted = true ∧
      (downloadAllPhotos MobileOS.android version granted itemOk
        photoUrls).trace = [DlEvent.permissionRequest] ∧
      (downloadAllPhotos MobileOS.android version granted itemOk
        photoUrls).reported = none) := by
  have hlen : ¬photoUrls.length = 0 := by
    simpa [List.length_eq_zero] using hne
  have hperm : permTrace MobileOS.android = [DlEvent.permissionRequest] := by
    simp [permTrace]
  by_cases hg : granted = false
  · have habort : MobileOS.android = MobileOS.android ∧ granted = false ∧
        version < 33 := ⟨rfl, hg, hreq.2⟩
    have heq : downloadAllPhotos MobileOS.android version granted itemOk
        photoUrls =
        { trace := permTrace MobileOS.android, succeeded := 0,
          reported := none, aborted := true } := by
      unfold downloadAllPhotos
      rw [if_neg hlen, if_pos habort]
    rw [heq, hperm]
    exact ⟨rfl, rfl, fun _ => ⟨rfl, rfl, rfl⟩⟩
  · have hnoabort : ¬(MobileOS.android = MobileOS.android ∧
        granted = false ∧ version < 33) := fun h => hg h.2.1
    have heq : downloadAllPhotos MobileOS.android version granted itemOk
        photoUrls =
        { trace := permTrace MobileOS.android ++
            (List.range photoUrls.length).map DlEvent.attemptDownload,
          succeeded := ((List.range photoUrls.length).filter itemOk).length,
          reported :=
            some (((List.range photoUrls.length).filter itemOk).length,
              photoUrls.length),
          aborted := false } := by
      unfold downloadAllPhotos
      rw [if_neg hlen, if_neg hnoabort]
    rw [heq, hperm]
    refine ⟨?_, rfl, fun h => absurd h hg⟩
    have hzero : ((List.range photoUrls.length).map
        DlEvent.attemptDownload).count DlEvent.permissionRequest = 0 := by
      refine List.count_eq_zero.mpr ?_
      intro hmem
      rcases List.mem_map.mp hmem with ⟨i, _, hcontra⟩
      exact DlEvent.noConfusion hcontra
    simp [List.count_append, hzero, List.count_cons]

/-- Witness for C6: a concrete Android 30 batch of one photo with the
grant denied; the batch aborts with only the permission request traced. -/
theorem downloadAllPhotos_permission_gate_witness :
    ((["a"] : List String) ≠ [] ∧
      requiresStoragePermission MobileOS.android 30) ∧
    (downloadAllPhotos MobileOS.android 30 false (fun _ => true)
      ["a"]).trace.count DlEvent.permissionRequest = 1 ∧
    (downloadAllPhotos MobileOS.android 30 false (fun _ => true)
      ["a"]).aborted = true ∧
    (downloadAllPhotos MobileOS.android 30 false (fun _ => true)
      ["a"]).trace = [DlEvent.permissionRequest] := by
  have h := downloadAllPhotos_permission_gate 30 false (fun _ => true)
    ["a"] (by decide) (by decide)
  exact ⟨⟨by decide, by decide⟩, h.1, (h.2.2 rfl).1, (h.2.2 rfl).2.1⟩

theorem photoParts_filterMap_key (ps : List ApiPhoto) :
    ∀ index : Nat, (photoParts index ps).filterMap filePartKey =
      List.replicate (ps.countP fun p => !(p.uri == "")) "files" := by
  induction ps with
  | nil => intro index; rfl
  | cons p rest ih =>
    intro index
    by_cases hu : p.uri = ""
    · simp [photoParts, hu, List.countP_cons, ih (index + 1)]
    · simp [photoParts, hu, List.countP_cons, filePartKey,
        List.replicate_succ, ih (index + 1)]

theorem photoParts_filterMap_uri (ps : List ApiPhoto) :
    ∀ index : Nat, (photoParts index ps).filterMap filePartUri =
      (ps.filter fun p => !(p.uri == "")).map ApiPhoto.uri := by
  induction ps with
  | nil => intro index; rfl
  | cons p rest ih =>
    intro index
    by_cases hu : p.uri = ""
    · simp [photoParts, hu, List.filter_cons, ih (index + 1)]
    · simp [photoParts, hu, List.filter_cons, filePartUri, ih (index + 1)]

theorem uploadProductFormData_fileParts (data : UploadProductData) :
    (uploadProductFormData data).filterMap filePartKey =
      (photoParts 0 data.photos).filterMap filePartKey ∧
    (uploadProductFormData data).filterMap filePartUri =
      (photoParts 0 data.photos).filterMap filePartUri := by
  unfold uploadProductFormData
  constructor <;>
    · split_ifs <;> simp [List.filterMap_append, filePartKey, filePartUri]

/-- C7 counterexample: for a concrete two-photo submission the binary
multipart parts are keyed by the repeated field name "files" — the key
"photo_1" appears on no part, so parts are not keyed by 1-based position
as the claim states; the 1-based position only shows up in the default
file names. -/
theorem uploadProduct_files_key_cex :
    (uploadProductFormData
      ⟨"t", 10, "d", "x", "", "", [⟨"u1", "", ""⟩, ⟨"u2", "", ""⟩]⟩).filterMap
        filePartKey = ["files", "files"] ∧
    ((uploadProductFormData
      ⟨"t", 10, "d", "x", "", "", [⟨"u1", "", ""⟩, ⟨"u2", "", ""⟩]⟩).all
        fun part => filePartKey part != some "photo_1") = true ∧
    (uploadProductFormData
      ⟨"t", 10, "d", "x", "", "", [⟨"u1", "", ""⟩, ⟨"u2", "", ""⟩]⟩).filterMap
        filePartName = ["photo_1.jpg", "photo_2.jpg"] := by
  refine ⟨rfl, rfl, rfl⟩

/-- C7 amended: `uploadProduct` packages each captured photo that has a
non-empty uri as a binary multipart part under the repeated field name
"files" (one part per photo, not keyed by position), preserving the
capture order of the photos; the 1-based position i+1 is used only for
the default file name photo_{i+1}.jpg of a photo without a file name, as
the concrete three-photo instance shows. -/
theorem uploadProduct_photo_packaging (data : UploadProductData) :
    (uploadProductFormData data).filterMap filePartKey =
      List.replicate (data.photos.countP fun p => !(p.uri == "")) "files" ∧
    (uploadProductFormData data).filterMap filePartUri =
      (data.photos.filter fun p => !(p.uri == "")).map ApiPhoto.uri ∧
    (uploadProductFormData
      ⟨"t", 10, "d", "x", "", "",
        [⟨"u1", "", ""⟩, ⟨"u2", "", ""⟩, ⟨"u3", "", ""⟩]⟩).filterMap
          filePartName = ["photo_1.jpg", "photo_2.jpg", "photo_3.jpg"] := by
  refine ⟨?_, ?_, rfl⟩
  · rw [(uploadProductFormData_fileParts data).1,
      photoParts_filterMap_key data.photos 0]
  · rw [(uploadProductFormData_fileParts data).2,
      photoParts_filterMap_uri data.photos 0]

/-- C9: the operator text search rejects any query whose trimmed text is
shorter than 3 characters with a validation message and never reaches the
remote call; the remote Amazon search is invoked exactly when the trimmed
query has length at least 3, and then exactly with that trimmed query. -/
theorem handleSearch_validation (s : String) :
    ((∃ m, handleSearch s = SearchOutcome.validationError m) ↔
      (jsTrim s).length < 3) ∧
    (handleSearch s = SearchOutcome.invokeRemote (jsTrim s) ↔
      3 ≤ (jsTrim s).length) ∧
    (∀ q, handleSearch s ≠ SearchOutcome.invokeRemote q ∨
      (q = jsTrim s ∧ 3 ≤ q.length)) := by
  by_cases h0 : jsTrim s = ""
  · have hlen : (jsTrim s).length = 0 := by simp [h0]
    refine ⟨?_, ?_, ?_⟩
    · simp [handleSearch, h0, hlen]
    · simp [handleSearch, h0, hlen]
    · intro q
      left
      simp [handleSearch, h0]
  · by_cases h1 : (jsTrim s).length < 3
    · refine ⟨?_, ?_, ?_⟩
      · simp [handleSearch, h0, h1]
      · simp [handleSearch, h0, h1, not_le.mpr h1]
      · intro q
        left
        simp [handleSearch, h0, h1]
    · refine ⟨?_, ?_, ?_⟩
      · simp [handleSearch, h0, h1, not_lt.mp h1]
      · simp [handleSearch, h0, h1, not_lt.mp h1]
      · intro q
        by_cases hq : q = jsTrim s
        · exact Or.inr ⟨hq, hq ▸ not_lt.mp h1⟩
        · left
          simp [handleSearch, h0, h1]
          exact fun hcontra => hq hcontra.symm

/-- C10: clearing the filters resets searchText, dateFrom and dateTo to
empty and hides the filter panel, while the displayed product list, the
total count and the rest of the screen state are unchanged, and no fetch
effect is issued — the list stays as produced by the last executed
search. -/
theorem clearFilters_frame (s : VendedorState) :
    (clearFilters s).1.searchText = "" ∧
    (clearFilters s).1.dateFrom = "" ∧
    (clearFilters s).1.dateTo = "" ∧
    (clearFilters s).1.showFilters = false ∧
    (clearFilters s).1.products = s.products ∧
    (clearFilters s).1.totalProducts = s.totalProducts ∧
    (clearFilters s).1.isLoading = s.isLoading ∧
    (clearFilters s).1.isRefreshing = s.isRefreshing ∧
    (clearFilters s).1.selectedProduct = s.selectedProduct ∧
    (clearFilters s).2 = [] ∧
    (searchButtonEffects s).2 = [ScreenEffect.fetchProducts false] :=
  ⟨rfl, rfl, rfl, rfl, rfl, rfl, rfl, rfl, rfl, rfl, rfl⟩

end AutoLog
